import Mathlib

/-!
Verification of the enrollment-consistency core of the course-management
backend (files `src/server.js`, `src/database.js` and the unnamed database
module).  The repository holds two variants of the HTTP server:

* the non-authenticated variant (second half of `server.js`, backed by
  `database.js`): tables `students`, `courses` (with `max_capacity` and the
  denormalized `current_enrollment`), `enrollments` keyed by
  `(student_id, course_code)`;
* the authenticated variant (first half of `server.js`, backed by the
  unnamed database module): tables `users`, `courses` (with `capacity` and
  `enrolled`), `enrollments` keyed by `(user_id, course_id)`, plus JWT
  middleware `authenticateToken` and the `isAdmin` gate.

Each route handler is embedded as a pure function from a database state to
a `(status, message)` response paired with the successor state.  A failure
oracle `fails : Nat → Bool` models individual SQL statements throwing: in
the non-auth variant each statement auto-commits, so effects of statements
completed before a failure persist; in the auth variant the statements
between BEGIN and COMMIT act on a transaction-local state that is published
only by COMMIT and discarded by ROLLBACK.
-/

namespace CMS

/-- JavaScript truthiness test used by the handlers on request-body string
fields: `!x` is true when the field is absent or the empty string. -/
def isFalsy : Option String → Bool
  | none => true
  | some s => s == ""

/-! ## Non-authenticated variant (second half of `server.js`, `database.js`) -/

namespace NA

/-- Row of the `students` table (`database.js`, CREATE TABLE students). -/
structure Student where
  student_id : String
  full_name : String
  current_semester : Nat
  email : String
  phone : String
  deriving DecidableEq

/-- Row of the `courses` table (`database.js`, CREATE TABLE courses).
`current_enrollment` is the denormalized counter; it is an integer (the
SQL column is INTEGER and the drop path can drive it below zero). -/
structure Course where
  course_code : String
  course_name : String
  description : String
  semester : Nat
  credits : Nat
  instructor : String
  max_capacity : Int
  current_enrollment : Int
  deriving DecidableEq

/-- Row of the `enrollments` table (`database.js`, CREATE TABLE enrollments).
`enrollment_id` is the SERIAL primary key; `grade` is nullable. -/
structure Enrollment where
  enrollment_id : Nat
  student_id : String
  course_code : String
  status : String
  grade : Option String
  deriving DecidableEq

/-- Committed database state seen by the non-auth route handlers.
`nextEnrollmentId` models the SERIAL sequence of `enrollment_id`. -/
structure DB where
  students : List Student
  courses : List Course
  enrollments : List Enrollment
  nextEnrollmentId : Nat
  deriving DecidableEq

/-- `SELECT * FROM students WHERE student_id = $1` (first matching row). -/
def findStudent (db : DB) (sid : String) : Option Student :=
  db.students.find? (fun s => s.student_id == sid)

/-- `SELECT * FROM courses WHERE course_code = $1` (first matching row). -/
def findCourse (db : DB) (code : String) : Option Course :=
  db.courses.find? (fun c => c.course_code == code)

/-- `SELECT * FROM enrollments WHERE student_id = $1 AND course_code = $2`. -/
def findEnrollmentPair (db : DB) (sid code : String) : Option Enrollment :=
  db.enrollments.find? (fun e => e.student_id == sid && e.course_code == code)

/-- `SELECT * FROM enrollments WHERE enrollment_id = $1`. -/
def findEnrollmentById (db : DB) (id : Nat) : Option Enrollment :=
  db.enrollments.find? (fun e => e.enrollment_id == id)

/-- `UPDATE courses SET current_enrollment = current_enrollment + delta
WHERE course_code = $1` — used with `delta = 1` by POST /api/enrollments
and with `delta = -1` by PUT /api/enrollments/:id/status. -/
def updateCourseEnrollment (delta : Int) (code : String) (cs : List Course) : List Course :=
  cs.map (fun c =>
    if c.course_code == code then
      { c with current_enrollment := c.current_enrollment + delta }
    else c)

/-- POST /api/enrollments of the non-auth variant, with a failure oracle:
`fails i` means the i-th SQL statement of the handler throws (0: student
select, 1: course select, 2: duplicate select, 3: insert, 4: counter
update), in which case the catch block answers 500.  There is no
transaction here: every completed statement is already committed, so the
state reached before the failing statement persists. -/
def createEnrollmentF (fails : Nat → Bool) (db : DB)
    (student_id course_code : Option String) : (Nat × String) × DB :=
  if isFalsy student_id || isFalsy course_code then
    ((400, "Student ID and Course Code are required"), db)
  else
    let sid := student_id.getD ""
    let code := course_code.getD ""
    if fails 0 then ((500, "Error creating enrollment"), db) else
    if (findStudent db sid).isNone then ((404, "Student not found"), db) else
    if fails 1 then ((500, "Error creating enrollment"), db) else
    if (findCourse db code).isNone then ((404, "Course not found"), db) else
    if fails 2 then ((500, "Error creating enrollment"), db) else
    if (findEnrollmentPair db sid code).isSome then
      ((400, "Already enrolled in this course"), db)
    else
    if fails 3 then ((500, "Error creating enrollment"), db) else
    let inserted : Enrollment :=
      { enrollment_id := db.nextEnrollmentId, student_id := sid,
        course_code := code, status := "Active", grade := none }
    let db1 : DB :=
      { db with enrollments := db.enrollments ++ [inserted],
                nextEnrollmentId := db.nextEnrollmentId + 1 }
    if fails 4 then ((500, "Error creating enrollment"), db1) else
    let db2 : DB := { db1 with courses := updateCourseEnrollment 1 code db1.courses }
    ((201, "Enrollment created successfully"), db2)

/-- POST /api/enrollments of the non-auth variant when no SQL statement
throws. -/
def createEnrollment (db : DB) (student_id course_code : Option String) :
    (Nat × String) × DB :=
  createEnrollmentF (fun _ => false) db student_id course_code

/-- PUT /api/enrollments/:id/status of the non-auth variant: writes the
given status string unconditionally, then decrements the owning course's
counter whenever the target status is "Dropped" — the prior status is
never consulted. -/
def updateEnrollmentStatus (db : DB) (id : Nat) (status : Option String) :
    (Nat × String) × DB :=
  if isFalsy status then ((400, "Status is required"), db)
  else
    let st := status.getD ""
    match findEnrollmentById db id with
    | none => ((404, "Enrollment not found"), db)
    | some enr =>
      let db1 : DB :=
        { db with enrollments := db.enrollments.map (fun e =>
            if e.enrollment_id == id then { e with status := st } else e) }
      let db2 : DB :=
        if st == "Dropped" then
          { db1 with courses := updateCourseEnrollment (-1) enr.course_code db1.courses }
        else db1
      ((200, "Enrollment status updated successfully"), db2)

/-- Number of active enrollment rows of a course, as an integer
(`count(enrollments where course=this and status=active)`; the non-auth
code writes the status literal as "Active"). -/
def countActive (code : String) (es : List Enrollment) : Int :=
  ((es.filter (fun e => e.course_code == code && e.status == "Active")).length : Int)

/-- The derived-counter invariant of the spec: every course row's
`current_enrollment` equals the number of its active enrollment rows. -/
def countInv (db : DB) : Prop :=
  ∀ c ∈ db.courses, c.current_enrollment = countActive c.course_code db.enrollments

instance (db : DB) : Decidable (countInv db) := by
  unfold countInv; infer_instance

/-! ### Schema initializer of `database.js` (the non-destructive variant) -/

/-- Persistent storage as the initializer sees it: `none` models a table
that does not exist yet. -/
structure Schema where
  students : Option (List Student)
  courses : Option (List Course)
  enrollments : Option (List Enrollment)
  deriving DecidableEq

/-- `CREATE TABLE IF NOT EXISTS …`: creates an empty table when the table
is absent and leaves an existing table untouched. -/
def createTableIfNotExists {α : Type} (t : Option (List α)) : Option (List α) :=
  some (t.getD [])

/-- `INSERT INTO students … ON CONFLICT (student_id) DO NOTHING`. -/
def insertStudentIfAbsent (s : Student) (l : List Student) : List Student :=
  if l.any (fun x => x.student_id == s.student_id) then l else l ++ [s]

/-- `INSERT INTO courses … ON CONFLICT (course_code) DO NOTHING`. -/
def insertCourseIfAbsent (c : Course) (l : List Course) : List Course :=
  if l.any (fun x => x.course_code == c.course_code) then l else l ++ [c]

/-- The default student seeded by `database.js`. -/
def defaultStudent : Student :=
  { student_id := "CSC-23S-061", full_name := "Muhammad Haider",
    current_semester := 6, email := "haider@example.com",
    phone := "0300-1234567" }

/-- Seed course rows: the insert lists only code, name, description,
semester, instructor and max_capacity, so `credits` and
`current_enrollment` take their column defaults 3 and 0. -/
def mkSeedCourse (code name descr : String) (sem : Nat) (instr : String)
    (cap : Int) : Course :=
  { course_code := code, course_name := name, description := descr,
    semester := sem, credits := 3, instructor := instr,
    max_capacity := cap, current_enrollment := 0 }

/-- The five 6th-semester seed courses of `database.js`. -/
def semester6Courses : List Course :=
  [ mkSeedCourse "CSC-601" "Mobile App Development"
      "Android and iOS application development with modern frameworks" 6
      "Sir Abid Ali" 35,
    mkSeedCourse "CSC-602" "Technical and Business Writing"
      "Professional documentation and business communication skills" 6
      "Dr Muhammad Nawaz" 30,
    mkSeedCourse "CSC-603" "Computer Networks"
      "Network protocols, security, and administration" 6
      "Sir Hamid Iqbal" 40,
    mkSeedCourse "CSC-604" "Artificial Intelligence"
      "Machine learning algorithms and AI fundamentals" 6
      "Sir Fida Hussain Khoso" 35,
    mkSeedCourse "CSC-605" "Digital Image Processing"
      "Image analysis, filtering, and computer vision basics" 6
      "Sir Maaz Ahmed" 30 ]

/-- The five 7th-semester seed courses of `database.js`. -/
def semester7Courses : List Course :=
  [ mkSeedCourse "CSC-701" "Cloud Computing"
      "AWS, Azure, and cloud deployment strategies" 7
      "Prof. Lisa Martinez" 35,
    mkSeedCourse "CSC-702" "Cyber Security"
      "Network security, cryptography, and ethical hacking" 7
      "Dr. James Anderson" 40,
    mkSeedCourse "CSC-703" "Software Engineering"
      "Agile methodologies and software project management" 7
      "Prof. Karen Thomas" 30,
    mkSeedCourse "CSC-704" "Data Science"
      "Big data analytics and machine learning models" 7
      "Dr. William Clark" 35,
    mkSeedCourse "CSC-705" "Internet of Things"
      "IoT architecture, sensors, and practical applications" 7
      "Prof. Amanda Lewis" 40 ]

/-- Models `initializeDatabase` of `database.js` (the non-destructive
variant): create the three tables if absent, insert the default student
and the ten seed courses with ON CONFLICT DO NOTHING, touch nothing
else.  (The trailing SELECT COUNT statements only log and are pure
reads.) -/
def initDatabase (s : Schema) : Schema :=
  let st := (createTableIfNotExists s.students).getD []
  let cs := (createTableIfNotExists s.courses).getD []
  let es := (createTableIfNotExists s.enrollments).getD []
  let st1 := insertStudentIfAbsent defaultStudent st
  let cs1 := semester6Courses.foldl (fun acc c => insertCourseIfAbsent c acc) cs
  let cs2 := semester7Courses.foldl (fun acc c => insertCourseIfAbsent c acc) cs1
  { students := some st1, courses := some cs2, enrollments := some es }

end NA

/-! ## Authenticated variant (first half of `server.js`, unnamed db module) -/

namespace Auth

/-- Row of the `users` table of the authenticated variant. -/
structure User where
  id : Nat
  name : String
  email : String
  password : String
  role : String
  deriving DecidableEq

/-- The projection of a user attached to the request context
(`SELECT id, name, email, role FROM users WHERE id = $1`) and returned by
`RETURNING id, name, email, role` in registration. -/
structure PublicUser where
  id : Nat
  name : String
  email : String
  role : String
  deriving DecidableEq

/-- Row of the auth-variant `courses` table; `enrolled` is its
denormalized counter, `capacity` its limit. -/
structure Course where
  id : Nat
  title : String
  description : String
  instructor : String
  credits : Nat
  schedule : String
  capacity : Int
  enrolled : Int
  deriving DecidableEq

/-- Row of the auth-variant `enrollments` table, keyed by
`(user_id, course_id)` with a SERIAL id. -/
structure Enrollment where
  id : Nat
  user_id : Nat
  course_id : Nat
  status : String
  deriving DecidableEq

/-- Committed database state of the authenticated variant.  The two
`next…Id` fields model the SERIAL sequences. -/
structure DB where
  users : List User
  courses : List Course
  enrollments : List Enrollment
  nextUserId : Nat
  nextEnrollmentId : Nat
  deriving DecidableEq

/-- `SELECT * FROM users WHERE email = $1` (first matching row). -/
def findUserByEmail (us : List User) (em : String) : Option User :=
  us.find? (fun u => u.email == em)

/-- `SELECT … FROM users WHERE id = $1` (first matching row). -/
def findUserById (us : List User) (uid : Nat) : Option User :=
  us.find? (fun u => u.id == uid)

/-- Outcome of the `authenticateToken` middleware. -/
inductive AuthResult where
  | missingToken
  | invalidToken
  | userNotFound
  | ok (u : PublicUser)
  deriving DecidableEq

/-- Splitting a character list at every space, as JavaScript's
`split(' ')` does: no collapsing of adjacent separators, and the empty
string splits to one empty field. -/
def splitSpacesAux : List Char → List Char → List String
  | [], acc => [String.mk acc.reverse]
  | c :: rest, acc =>
    if c = ' ' then String.mk acc.reverse :: splitSpacesAux rest []
    else splitSpacesAux rest (c :: acc)

/-- JavaScript's `s.split(' ')` on a string. -/
def splitSpaces (s : String) : List String := splitSpacesAux s.data []

/-- `authHeader && authHeader.split(' ')[1]`: the token is the second
space-separated word of the Authorization header; an absent header, a
missing second word or an empty second word all count as no token. -/
def extractToken (authHeader : Option String) : Option String :=
  match authHeader with
  | none => none
  | some h =>
    match (splitSpaces h).get? 1 with
    | none => none
    | some t => if t == "" then none else some t

/-- The `authenticateToken` middleware: 401 without a token; any
`jwt.verify` failure is caught and answered 403 "Invalid or expired
token"; a token whose identity is no longer in the `users` table is
answered 403 "User not found"; otherwise the projected user is attached
to the request.  `verify` stands for `jwt.verify`, returning the decoded
user id or failing. -/
def authenticateToken (verify : String → Option Nat) (us : List User)
    (authHeader : Option String) : AuthResult :=
  match extractToken authHeader with
  | none => .missingToken
  | some t =>
    match verify t with
    | none => .invalidToken
    | some uid =>
      match findUserById us uid with
      | none => .userNotFound
      | some u => .ok { id := u.id, name := u.name, email := u.email, role := u.role }

/-- HTTP status of each failing outcome of `authenticateToken`
(`none` when the middleware passes control to the handler). -/
def authFailStatus : AuthResult → Option Nat
  | .missingToken => some 401
  | .invalidToken => some 403
  | .userNotFound => some 403
  | .ok _ => none

/-- Response message of each failing outcome of `authenticateToken`. -/
def authFailMessage : AuthResult → Option String
  | .missingToken => some "Access token required"
  | .invalidToken => some "Invalid or expired token"
  | .userNotFound => some "User not found"
  | .ok _ => none

/-- The `isAdmin` middleware: 403 unless the attached user's role is the
string "admin"; `none` means control passes to the handler. -/
def isAdmin (u : PublicUser) : Option (Nat × String) :=
  if u.role != "admin" then some (403, "Admin access required") else none

/-- POST /api/auth/register: validates the three required fields, rejects
an existing email, hashes the password, and inserts a user whose role is
`role || 'student'` — whatever string the caller supplied, with no
privilege check; the response carries the RETURNING projection (without
the password column).  `hash` stands for `bcrypt.hash`. -/
def register (hash : String → String) (db : DB) (name email password role : Option String) :
    ((Nat × String) × Option PublicUser) × DB :=
  if isFalsy name || isFalsy email || isFalsy password then
    (((400, "All fields are required"), none), db)
  else
    let nm := name.getD ""
    let em := email.getD ""
    let pw := password.getD ""
    if (findUserByEmail db.users em).isSome then
      (((400, "User already exists"), none), db)
    else
      let newRole := if isFalsy role then "student" else role.getD ""
      let newUser : User :=
        { id := db.nextUserId, name := nm, email := em,
          password := hash pw, role := newRole }
      let db1 : DB :=
        { db with users := db.users ++ [newUser], nextUserId := db.nextUserId + 1 }
      (((201, "Registration successful"),
        some { id := newUser.id, name := newUser.name, email := newUser.email,
               role := newUser.role }), db1)

/-- The combined effect of the two write statements of the auth-variant
enroll transaction: append the enrollment row (status column default
"active") and bump the course's `enrolled` counter. -/
def applyEnroll (db : DB) (uid cid : Nat) : DB :=
  let row : Enrollment :=
    { id := db.nextEnrollmentId, user_id := uid, course_id := cid,
      status := "active" }
  { db with
    enrollments := db.enrollments ++ [row],
    nextEnrollmentId := db.nextEnrollmentId + 1,
    courses := db.courses.map (fun c =>
      if c.id == cid then { c with enrolled := c.enrolled + 1 } else c) }

/-- POST /api/enrollments of the authenticated variant, with a failure
oracle over its SQL statements (0: course select, 1: duplicate select,
2: enrollment insert, 3: counter update, 4: COMMIT).  The course-not-found
and capacity checks run before the transaction begins; the duplicate
check, insert and counter update run between BEGIN and COMMIT on a
transaction-local state, which is published only by a successful COMMIT
— any failure inside the transaction triggers ROLLBACK, leaving the
committed state untouched and answering 500. -/
def enrollAuthF (fails : Nat → Bool) (db : DB) (userId : Nat)
    (courseId : Option Nat) : (Nat × String) × DB :=
  match courseId with
  | none => ((400, "Course ID is required"), db)
  | some cid =>
    if fails 0 then ((500, "Error enrolling in course"), db) else
    match db.courses.find? (fun c => c.id == cid) with
    | none => ((404, "Course not found"), db)
    | some course =>
      if course.capacity ≤ course.enrolled then ((400, "Course is full"), db) else
      if fails 1 then ((500, "Error enrolling in course"), db) else
      if (db.enrollments.find? (fun e => e.user_id == userId && e.course_id == cid)).isSome then
        ((400, "Already enrolled in this course"), db)
      else
      if fails 2 then ((500, "Error enrolling in course"), db) else
      let row : Enrollment :=
        { id := db.nextEnrollmentId, user_id := userId, course_id := cid,
          status := "active" }
      let tx1 : DB :=
        { db with enrollments := db.enrollments ++ [row],
                  nextEnrollmentId := db.nextEnrollmentId + 1 }
      if fails 3 then ((500, "Error enrolling in course"), db) else
      let tx2 : DB :=
        { tx1 with courses := tx1.courses.map (fun c =>
            if c.id == cid then { c with enrolled := c.enrolled + 1 } else c) }
      if fails 4 then ((500, "Error enrolling in course"), db) else
      ((201, "Enrolled successfully"), tx2)

/-- POST /api/enrollments of the authenticated variant when no SQL
statement throws. -/
def enrollAuth (db : DB) (userId : Nat) (courseId : Option Nat) :
    (Nat × String) × DB :=
  enrollAuthF (fun _ => false) db userId courseId

/-! ### JSON shaping of user rows (password exposure) -/

/-- A raw SQL row as the JavaScript object the driver hands back: an
association list from column name to value. -/
abbrev Row : Type := List (String × String)

/-- The set of keys of a row object. -/
def rowKeys (r : Row) : List String := r.map Prod.fst

/-- The column list of registration's `RETURNING id, name, email, role,
created_at`. -/
def registerReturningCols : List String :=
  ["id", "name", "email", "role", "created_at"]

/-- Projection of a row to a column list, as SELECT/RETURNING does. -/
def selectColumns (cols : List String) (r : Row) : Row :=
  cols.filterMap (fun k => (r.find? (fun kv => kv.1 == k)).map (fun kv => (k, kv.2)))

/-- Removal of the `password` key from a row object: login's rest
destructuring `const { password: _, ...userWithoutPassword } = user` and
profile's `delete user.password` both produce this. -/
def omitPassword (r : Row) : Row := r.filter (fun kv => kv.1 != "password")

/-- The `user` object of the registration response: the RETURNING
projection of the inserted row. -/
def registerResponseUser (insertedRow : Row) : Row :=
  selectColumns registerReturningCols insertedRow

/-- The `user` object of the login response: the full row with the
password field stripped. -/
def loginResponseUser (userRow : Row) : Row := omitPassword userRow

/-- The `user` object of the profile response: the row is `u.*` plus the
computed `enrollment_count` column, with the password field deleted
before responding. -/
def profileResponseUser (userRow : Row) (enrollmentCount : Nat) : Row :=
  omitPassword (userRow ++ [("enrollment_count", toString enrollmentCount)])

end Auth

/-! ## Concrete states used to evaluate the handlers -/

/-- The seeded CSC-601 course (capacity 35, counter 0). -/
def course601 : NA.Course :=
  NA.mkSeedCourse "CSC-601" "Mobile App Development"
    "Android and iOS application development with modern frameworks" 6
    "Sir Abid Ali" 35

/-- A fresh state: the default student, CSC-601 with no enrollments. -/
def okDb : NA.DB :=
  { students := [NA.defaultStudent], courses := [course601],
    enrollments := [], nextEnrollmentId := 1 }

/-- CSC-601 already at capacity (counter 35 of 35), no enrollment rows
listed (only the counter matters to the capacity test of the spec). -/
def fullDb : NA.DB :=
  { students := [NA.defaultStudent],
    courses := [{ course601 with current_enrollment := 35 }],
    enrollments := [], nextEnrollmentId := 1 }

/-- A state whose single enrollment is already dropped; the counter (0)
agrees with the number of active rows (0). -/
def droppedDb : NA.DB :=
  { students := [NA.defaultStudent], courses := [course601],
    enrollments := [{ enrollment_id := 1, student_id := "CSC-23S-061",
                      course_code := "CSC-601", status := "Dropped",
                      grade := none }],
    nextEnrollmentId := 2 }

/-- The empty committed state. -/
def emptyDb : NA.DB :=
  { students := [], courses := [], enrollments := [], nextEnrollmentId := 1 }

/-- A state with the default student but no courses. -/
def noCourseDb : NA.DB :=
  { students := [NA.defaultStudent], courses := [],
    enrollments := [], nextEnrollmentId := 1 }

/-- Failure oracle making exactly the counter-update statement of the
non-auth enroll handler throw. -/
def updFails : Nat → Bool := fun i => i == 4

/-- A student row distinct from the seeded default. -/
def preexistingStudent : NA.Student :=
  { student_id := "CSC-23S-099", full_name := "Test Person",
    current_semester := 5, email := "t@example.com",
    phone := "0300-0000000" }

/-- A storage state holding a pre-existing student row, used to evaluate
the schema initializer. -/
def exSchema : NA.Schema :=
  { students := some [preexistingStudent], courses := some [],
    enrollments := some [] }

/-- An auth-variant course at capacity (30 of 30). -/
def authFullCourse : Auth.Course :=
  { id := 1, title := "Android Development",
    description := "Learn Android app development with Java/Kotlin",
    instructor := "John Doe", credits := 3, schedule := "Mon/Wed 10:00 AM",
    capacity := 30, enrolled := 30 }

/-- Auth-variant state with one full course. -/
def authFullDb : Auth.DB :=
  { users := [], courses := [authFullCourse], enrollments := [],
    nextUserId := 1, nextEnrollmentId := 1 }

/-- The empty auth-variant state. -/
def emptyAuthDb : Auth.DB :=
  { users := [], courses := [], enrollments := [],
    nextUserId := 1, nextEnrollmentId := 1 }

/-- Shorthand for building the projected user record attached to request
contexts and carried in responses. -/
def pubUser (id : Nat) (nm em rl : String) : Auth.PublicUser :=
  { id := id, name := nm, email := em, role := rl }

/-- A full user row as the database driver returns it, password hash
included. -/
def exUserRow : Auth.Row :=
  [("id", "1"), ("name", "Admin User"), ("email", "admin@cms.com"),
   ("password", "bcrypt-hash"), ("role", "admin"), ("created_at", "t0")]

/-! ## Helper lemmas -/

/-- The counter update leaves every course's code unchanged. -/
theorem course_code_of_bump (d : Int) (code : String) (c : NA.Course) :
    ((if c.course_code == code then
        { c with current_enrollment := c.current_enrollment + d }
      else c) : NA.Course).course_code = c.course_code := by
  split <;> rfl

/-- A course is found by code after a counter update iff it was found
before. -/
theorem find_updateCourseEnrollment_isSome (d : Int) (code₀ code : String)
    (cs : List NA.Course) :
    ((NA.updateCourseEnrollment d code₀ cs).find?
        (fun c => c.course_code == code)).isSome =
      ((cs.find? (fun c => c.course_code == code)).isSome) := by
  unfold NA.updateCourseEnrollment
  rw [List.find?_map]
  rw [Option.isSome_map']
  have hfun : ((fun c : NA.Course => c.course_code == code) ∘
      (fun c : NA.Course =>
        if c.course_code == code₀ then
          { c with current_enrollment := c.current_enrollment + d }
        else c)) = fun c : NA.Course => c.course_code == code := by
    funext c
    simp only [Function.comp_apply, course_code_of_bump]
  rw [hfun]

/-- Appending one active enrollment row raises each course's active count
by one exactly when the codes match. -/
theorem countActive_append_active (code' : String) (es : List NA.Enrollment)
    (e : NA.Enrollment) (hst : e.status = "Active") :
    NA.countActive code' (es ++ [e]) =
      NA.countActive code' es + (if e.course_code == code' then 1 else 0) := by
  unfold NA.countActive
  rw [List.filter_append]
  by_cases h : e.course_code == code'
  · simp [h, hst]
  · simp [h, hst]

/-! ## Claim C1: the derived-counter invariant -/

/-- C1 (amended part): the non-auth enroll handler, when none of its SQL
statements throws, preserves the invariant that every course's
`current_enrollment` equals its number of active enrollment rows. -/
theorem createEnrollment_preserves_countInv (db : NA.DB)
    (student_id course_code : Option String) (h : NA.countInv db) :
    NA.countInv (NA.createEnrollment db student_id course_code).2 := by
  unfold NA.createEnrollment NA.createEnrollmentF
  dsimp only
  repeat' split
  any_goals exact h
  -- remaining goal: the success branch
  intro c' hc'
  simp only [NA.updateCourseEnrollment, List.mem_map] at hc'
  obtain ⟨c, hc, rfl⟩ := hc'
  have hcc := h c hc
  rw [countActive_append_active _ _ _ rfl]
  by_cases hcode : (c.course_code == course_code.getD "") = true
  · rw [if_pos hcode]
    have heq : c.course_code = course_code.getD "" := eq_of_beq hcode
    simp [hcc, heq]
  · rw [if_neg hcode]
    have hne : ¬ (course_code.getD "" = c.course_code) := fun hb =>
      hcode (beq_iff_eq.mpr hb.symm)
    simp [hcc, hne]

/-- Witness for C1's theorem at a concrete invariant-satisfying state. -/
theorem createEnrollment_preserves_countInv_witness :
    NA.countInv (NA.createEnrollment okDb (some "CSC-23S-061") (some "CSC-601")).2 :=
  createEnrollment_preserves_countInv okDb (some "CSC-23S-061") (some "CSC-601")
    (by decide)

/-- C1 counterexample: the status-update handler breaks the invariant.
`droppedDb` satisfies it (counter 0, no active rows); re-dropping the
already-dropped enrollment decrements the counter to -1 while the active
count stays 0. -/
theorem setStatus_breaks_countInv :
    NA.countInv droppedDb ∧
      ¬ NA.countInv (NA.updateEnrollmentStatus droppedDb 1 (some "Dropped")).2 := by
  constructor
  · decide
  · decide

/-! ## Claim C5: the drop / decrement logic -/

/-- C5 (amended): for an existing enrollment the handler always answers
200 and decrements the owning course's counter exactly when the target
status string is "Dropped" — the prior status is never consulted. -/
theorem setStatus_drop_decrements_always (db : NA.DB) (id : Nat) (st : String)
    (hst : st ≠ "") (enr : NA.Enrollment)
    (hfind : NA.findEnrollmentById db id = some enr) :
    (NA.updateEnrollmentStatus db id (some st)).1 =
        (200, "Enrollment status updated successfully") ∧
      (NA.updateEnrollmentStatus db id (some st)).2.courses =
        (if st == "Dropped" then
          NA.updateCourseEnrollment (-1) enr.course_code db.courses
        else db.courses) := by
  unfold NA.updateEnrollmentStatus
  simp only [isFalsy, beq_iff_eq, hst, if_false, hfind, Option.getD_some]
  constructor
  · trivial
  · split <;> rename_i hcond <;> simp [hcond]

/-- Witness for C5's theorem: re-dropping enrollment 1 of `droppedDb`. -/
theorem setStatus_drop_decrements_always_witness :
    (NA.updateEnrollmentStatus droppedDb 1 (some "Dropped")).1 =
        (200, "Enrollment status updated successfully") ∧
      (NA.updateEnrollmentStatus droppedDb 1 (some "Dropped")).2.courses =
        (if ("Dropped" : String) == "Dropped" then
          NA.updateCourseEnrollment (-1) "CSC-601" droppedDb.courses
        else droppedDb.courses) :=
  setStatus_drop_decrements_always droppedDb 1 "Dropped" (by decide)
    { enrollment_id := 1, student_id := "CSC-23S-061", course_code := "CSC-601",
      status := "Dropped", grade := none } (by decide)

/-- C5 counterexample: enrollment 1 of `droppedDb` is already dropped,
yet dropping it again decrements the course counter a second time, from
0 down to -1. -/
theorem setStatus_double_drop_decrements_again :
    (NA.findEnrollmentById droppedDb 1).map (fun e => e.status) = some "Dropped" ∧
      ((NA.updateEnrollmentStatus droppedDb 1 (some "Dropped")).2.courses.map
        (fun c => c.current_enrollment)) = [-1] := by
  constructor
  · decide
  · decide

/-! ## Claim C2: atomicity of the enroll flow -/

/-- C2 (amended part): in the authenticated variant the enrollment insert
and counter increment sit between BEGIN and COMMIT, so whatever SQL
statement fails, the committed state is either untouched or carries both
effects — never a partial one. -/
theorem enrollAuth_all_or_nothing (fails : Nat → Bool) (db : Auth.DB)
    (uid cid : Nat) :
    (Auth.enrollAuthF fails db uid (some cid)).2 = db ∨
      (Auth.enrollAuthF fails db uid (some cid)).2 = Auth.applyEnroll db uid cid := by
  unfold Auth.enrollAuthF
  dsimp only
  repeat' split
  all_goals first
    | (left; rfl)
    | (right; rfl)

/-- C2 counterexample: in the non-auth variant the insert and the counter
update are separate auto-committed statements.  When the counter update
throws, the handler answers 500 but the already-committed enrollment row
persists while the counter stays 0 — a visible partial state. -/
theorem createEnrollment_failure_leaves_row_without_bump :
    (NA.createEnrollmentF updFails okDb (some "CSC-23S-061") (some "CSC-601")).1 =
        (500, "Error creating enrollment") ∧
      ((NA.createEnrollmentF updFails okDb (some "CSC-23S-061")
          (some "CSC-601")).2.enrollments.map (fun e => (e.student_id, e.course_code))) =
        [("CSC-23S-061", "CSC-601")] ∧
      ((NA.createEnrollmentF updFails okDb (some "CSC-23S-061")
          (some "CSC-601")).2.courses.map (fun c => c.current_enrollment)) = [0] := by
  refine ⟨?_, ?_, ?_⟩ <;> decide

/-! ## Claim C3: the capacity check -/

/-- C3 (amended part): the authenticated variant does reject an enroll
call on a course whose counter has reached capacity, with 400 "Course is
full" and an unchanged state — but this check runs before the
transaction begins. -/
theorem enrollAuth_rejects_full_course (db : Auth.DB) (uid cid : Nat)
    (c : Auth.Course) (hfind : db.courses.find? (fun x => x.id == cid) = some c)
    (hfull : c.capacity ≤ c.enrolled) :
    Auth.enrollAuth db uid (some cid) = ((400, "Course is full"), db) := by
  unfold Auth.enrollAuth Auth.enrollAuthF
  simp [hfind, hfull]

/-- Witness for C3's theorem on the concrete full course. -/
theorem enrollAuth_rejects_full_course_witness :
    Auth.enrollAuth authFullDb 7 (some 1) = ((400, "Course is full"), authFullDb) :=
  enrollAuth_rejects_full_course authFullDb 7 1 authFullCourse (by decide) (by decide)

/-- C3 counterexample: the non-auth enroll handler has no capacity check
at all.  On `fullDb` (counter 35 of capacity 35) the enroll call answers
201 and pushes the counter to 36, above capacity, instead of failing
with Conflict("course full"). -/
theorem createEnrollment_ignores_capacity :
    (NA.createEnrollment fullDb (some "CSC-23S-061") (some "CSC-601")).1 =
        (201, "Enrollment created successfully") ∧
      ((NA.createEnrollment fullDb (some "CSC-23S-061")
          (some "CSC-601")).2.courses.map (fun c => c.current_enrollment)) = [36] := by
  refine ⟨?_, ?_⟩ <;> decide

/-! ## Claim C6: order of the existence checks -/

/-- C6 (amended): the non-auth enroll handler resolves the student id
first and only then the course code: a missing student is reported
regardless of the course, and a missing course is reported only once the
student resolves. -/
theorem enroll_checks_student_before_course (db : NA.DB) (sid code : String)
    (hsid : sid ≠ "") (hcode : code ≠ "") :
    (NA.findStudent db sid = none →
        NA.createEnrollment db (some sid) (some code) =
          ((404, "Student not found"), db)) ∧
      ((NA.findStudent db sid).isSome → NA.findCourse db code = none →
        NA.createEnrollment db (some sid) (some code) =
          ((404, "Course not found"), db)) := by
  constructor
  · intro hs
    unfold NA.createEnrollment NA.createEnrollmentF
    simp [isFalsy, hsid, hcode, hs]
  · intro hs hc
    unfold NA.createEnrollment NA.createEnrollmentF
    simp [isFalsy, hsid, hcode, hc, Option.isNone_iff_eq_none,
      Option.not_isSome_iff_eq_none, hs]
    intro hnone
    rw [hnone] at hs
    simp at hs

/-- Witness for C6's theorem: the student check fires on the empty state,
the course check fires once the student exists. -/
theorem enroll_checks_student_before_course_witness :
    (NA.createEnrollment emptyDb (some "CSC-23S-061") (some "CSC-601") =
        ((404, "Student not found"), emptyDb)) ∧
      (NA.createEnrollment noCourseDb (some "CSC-23S-061") (some "CSC-601") =
        ((404, "Course not found"), noCourseDb)) :=
  ⟨(enroll_checks_student_before_course emptyDb "CSC-23S-061" "CSC-601"
      (by decide) (by decide)).1 (by decide),
   (enroll_checks_student_before_course noCourseDb "CSC-23S-061" "CSC-601"
      (by decide) (by decide)).2 (by decide) (by decide)⟩

/-- C6 counterexample: in a state where the course code resolves to no
course, the handler does not fail with "Course not found" — it reports
the missing student, because the student lookup runs first. -/
theorem enroll_reports_student_missing_first :
    NA.findCourse emptyDb "CSC-601" = none ∧
      (NA.createEnrollment emptyDb (some "S-1") (some "CSC-601")).1 =
        (404, "Student not found") := by
  refine ⟨?_, ?_⟩ <;> decide

/-! ## Claim C4: duplicate enrollment -/

/-- C4: from a state where the student and the course exist and the pair
is not yet enrolled, the first enroll call answers 201, appends one
"Active" enrollment row and bumps the course counter by one; the second
identical call answers 400 "Already enrolled in this course" and leaves
the state — counter included — untouched, and exactly one row for the
pair exists afterwards. -/
theorem enroll_twice_conflict (db : NA.DB) (sid code : String)
    (hsid : sid ≠ "") (hcode : code ≠ "")
    (hs : (NA.findStudent db sid).isSome = true)
    (hc : (NA.findCourse db code).isSome = true)
    (hd : NA.findEnrollmentPair db sid code = none) :
    (NA.createEnrollment db (some sid) (some code)).1 =
        (201, "Enrollment created successfully") ∧
      (NA.createEnrollment db (some sid) (some code)).2.enrollments =
        db.enrollments ++
          [{ enrollment_id := db.nextEnrollmentId, student_id := sid,
             course_code := code, status := "Active", grade := none }] ∧
      (NA.createEnrollment db (some sid) (some code)).2.courses =
        NA.updateCourseEnrollment 1 code db.courses ∧
      NA.createEnrollment (NA.createEnrollment db (some sid) (some code)).2
          (some sid) (some code) =
        ((400, "Already enrolled in this course"),
          (NA.createEnrollment db (some sid) (some code)).2) ∧
      ((NA.createEnrollment db (some sid) (some code)).2.enrollments.filter
          (fun e => e.student_id == sid && e.course_code == code)).length = 1 := by
  have hs' : (NA.findStudent db sid).isNone = false := by
    cases hx : NA.findStudent db sid
    · rw [hx] at hs; simp at hs
    · rfl
  have hc' : (NA.findCourse db code).isNone = false := by
    cases hx : NA.findCourse db code
    · rw [hx] at hc; simp at hc
    · rfl
  have key1 : NA.createEnrollment db (some sid) (some code) =
      ((201, "Enrollment created successfully"),
        { students := db.students,
          courses := NA.updateCourseEnrollment 1 code db.courses,
          enrollments := db.enrollments ++
            [{ enrollment_id := db.nextEnrollmentId, student_id := sid,
               course_code := code, status := "Active", grade := none }],
          nextEnrollmentId := db.nextEnrollmentId + 1 }) := by
    unfold NA.createEnrollment NA.createEnrollmentF
    simp [isFalsy, hsid, hcode, hs', hc', hd]
  rw [key1]
  have hs1' : (NA.findStudent
      { students := db.students,
        courses := NA.updateCourseEnrollment 1 code db.courses,
        enrollments := db.enrollments ++
          [{ enrollment_id := db.nextEnrollmentId, student_id := sid,
             course_code := code, status := "Active", grade := none }],
        nextEnrollmentId := db.nextEnrollmentId + 1 } sid).isNone = false := hs'
  have hc1' : (NA.findCourse
      { students := db.students,
        courses := NA.updateCourseEnrollment 1 code db.courses,
        enrollments := db.enrollments ++
          [{ enrollment_id := db.nextEnrollmentId, student_id := sid,
             course_code := code, status := "Active", grade := none }],
        nextEnrollmentId := db.nextEnrollmentId + 1 } code).isNone = false := by
    have hiso := find_updateCourseEnrollment_isSome 1 code code db.courses
    have hc1 : ((NA.updateCourseEnrollment 1 code db.courses).find?
        (fun c => c.course_code == code)).isSome = true := by rw [hiso]; exact hc
    cases hx : (NA.updateCourseEnrollment 1 code db.courses).find?
        (fun c => c.course_code == code)
    · rw [hx] at hc1; simp at hc1
    · exact congrArg Option.isNone hx ▸ rfl
  have hd1 : (NA.findEnrollmentPair
      { students := db.students,
        courses := NA.updateCourseEnrollment 1 code db.courses,
        enrollments := db.enrollments ++
          [{ enrollment_id := db.nextEnrollmentId, student_id := sid,
             course_code := code, status := "Active", grade := none }],
        nextEnrollmentId := db.nextEnrollmentId + 1 } sid code).isSome = true := by
    show ((db.enrollments ++
        ([{ enrollment_id := db.nextEnrollmentId, student_id := sid,
            course_code := code, status := "Active",
            grade := none }] : List NA.Enrollment)).find?
          (fun e => e.student_id == sid && e.course_code == code)).isSome = true
    rw [List.find?_append]
    rw [show db.enrollments.find?
        (fun e => e.student_id == sid && e.course_code == code) = none from hd]
    simp
  have hnil : db.enrollments.filter
      (fun e => e.student_id == sid && e.course_code == code) = [] := by
    rw [List.filter_eq_nil_iff]
    intro a ha hp
    exact (List.find?_eq_none.mp hd) a ha hp
  refine ⟨rfl, rfl, rfl, ?_, ?_⟩
  · unfold NA.createEnrollment NA.createEnrollmentF
    simp [isFalsy, hsid, hcode, hs1', hc1', hd1]
  · show ((db.enrollments ++ _).filter _).length = 1
    rw [List.filter_append, hnil]
    simp

/-- Witness for C4's theorem on the fresh concrete state. -/
theorem enroll_twice_conflict_witness :
    (NA.createEnrollment okDb (some "CSC-23S-061") (some "CSC-601")).1 =
        (201, "Enrollment created successfully") ∧
      NA.createEnrollment
          (NA.createEnrollment okDb (some "CSC-23S-061") (some "CSC-601")).2
          (some "CSC-23S-061") (some "CSC-601") =
        ((400, "Already enrolled in this course"),
          (NA.createEnrollment okDb (some "CSC-23S-061") (some "CSC-601")).2) :=
  ⟨(enroll_twice_conflict okDb "CSC-23S-061" "CSC-601" (by decide) (by decide)
      (by decide) (by decide) (by decide)).1,
   (enroll_twice_conflict okDb "CSC-23S-061" "CSC-601" (by decide) (by decide)
      (by decide) (by decide) (by decide)).2.2.2.1⟩

/-! ## Claim C7: the schema initializer -/

/-- Inserting with ON CONFLICT DO NOTHING never removes a student row. -/
theorem mem_insertStudentIfAbsent (s x : NA.Student) (l : List NA.Student)
    (hx : x ∈ l) : x ∈ NA.insertStudentIfAbsent s l := by
  unfold NA.insertStudentIfAbsent
  split
  · exact hx
  · exact List.mem_append_left _ hx

/-- After inserting a student, a row with its id is present. -/
theorem any_insertStudentIfAbsent_self (s : NA.Student) (l : List NA.Student) :
    (NA.insertStudentIfAbsent s l).any
      (fun x => x.student_id == s.student_id) = true := by
  unfold NA.insertStudentIfAbsent
  split <;> simp_all

/-- Inserting a student whose id is already present is a no-op. -/
theorem insertStudentIfAbsent_noop (s : NA.Student) (l : List NA.Student)
    (h : l.any (fun x => x.student_id == s.student_id) = true) :
    NA.insertStudentIfAbsent s l = l := by
  unfold NA.insertStudentIfAbsent
  rw [if_pos h]

/-- Inserting with ON CONFLICT DO NOTHING never removes a course row. -/
theorem mem_insertCourseIfAbsent (c x : NA.Course) (l : List NA.Course)
    (hx : x ∈ l) : x ∈ NA.insertCourseIfAbsent c l := by
  unfold NA.insertCourseIfAbsent
  split
  · exact hx
  · exact List.mem_append_left _ hx

/-- After inserting a course, a row with its code is present. -/
theorem any_insertCourseIfAbsent_self (c : NA.Course) (l : List NA.Course) :
    (NA.insertCourseIfAbsent c l).any
      (fun x => x.course_code == c.course_code) = true := by
  unfold NA.insertCourseIfAbsent
  split <;> simp_all

/-- Inserting a course whose code is already present is a no-op. -/
theorem insertCourseIfAbsent_noop (c : NA.Course) (l : List NA.Course)
    (h : l.any (fun x => x.course_code == c.course_code) = true) :
    NA.insertCourseIfAbsent c l = l := by
  unfold NA.insertCourseIfAbsent
  rw [if_pos h]

/-- Course insertion preserves any satisfied row predicate. -/
theorem any_insertCourseIfAbsent_mono (c : NA.Course) (l : List NA.Course)
    (p : NA.Course → Bool) (h : l.any p = true) :
    (NA.insertCourseIfAbsent c l).any p = true := by
  unfold NA.insertCourseIfAbsent
  split
  · exact h
  · simp [h]

/-- The seeding fold never removes a course row. -/
theorem mem_foldl_insertCourse (cs l : List NA.Course) (x : NA.Course)
    (hx : x ∈ l) :
    x ∈ cs.foldl (fun acc c => NA.insertCourseIfAbsent c acc) l := by
  induction cs generalizing l with
  | nil => exact hx
  | cons c t ih => exact ih _ (mem_insertCourseIfAbsent c x l hx)

/-- The seeding fold preserves any satisfied row predicate. -/
theorem any_foldl_insertCourse_mono (cs l : List NA.Course)
    (p : NA.Course → Bool) (h : l.any p = true) :
    (cs.foldl (fun acc c => NA.insertCourseIfAbsent c acc) l).any p = true := by
  induction cs generalizing l with
  | nil => exact h
  | cons c t ih => exact ih _ (any_insertCourseIfAbsent_mono c l p h)

/-- After the seeding fold, each seeded course's code is present. -/
theorem any_foldl_insertCourse_self (cs : List NA.Course) (l : List NA.Course)
    (c : NA.Course) (hc : c ∈ cs) :
    (cs.foldl (fun acc d => NA.insertCourseIfAbsent d acc) l).any
      (fun x => x.course_code == c.course_code) = true := by
  induction cs generalizing l with
  | nil => cases hc
  | cons d t ih =>
    rcases List.mem_cons.mp hc with hcd | hct
    · subst hcd
      exact any_foldl_insertCourse_mono t _ _ (any_insertCourseIfAbsent_self c l)
    · exact ih _ hct

/-- The seeding fold is a no-op when every seeded code is already
present. -/
theorem foldl_insertCourse_noop (cs l : List NA.Course)
    (h : ∀ c ∈ cs, l.any (fun x => x.course_code == c.course_code) = true) :
    cs.foldl (fun acc c => NA.insertCourseIfAbsent c acc) l = l := by
  induction cs with
  | nil => rfl
  | cons c t ih =>
    show t.foldl (fun acc d => NA.insertCourseIfAbsent d acc)
      (NA.insertCourseIfAbsent c l) = l
    rw [insertCourseIfAbsent_noop c l (h c (List.mem_cons_self c t))]
    exact ih (fun d hd => h d (List.mem_cons_of_mem c hd))

/-- C7: the non-destructive schema initializer of `database.js` is
idempotent — a second run changes nothing — and never deletes a
pre-existing row from any of the three tables. -/
theorem initDatabase_idempotent_and_preserves_rows (s : NA.Schema) :
    NA.initDatabase (NA.initDatabase s) = NA.initDatabase s ∧
      (∀ x ∈ s.students.getD [], x ∈ (NA.initDatabase s).students.getD []) ∧
      (∀ x ∈ s.courses.getD [], x ∈ (NA.initDatabase s).courses.getD []) ∧
      (∀ x ∈ s.enrollments.getD [], x ∈ (NA.initDatabase s).enrollments.getD []) := by
  refine ⟨?_, ?_, ?_, ?_⟩
  · unfold NA.initDatabase NA.createTableIfNotExists
    simp only [Option.getD_some]
    have h6 : ∀ c ∈ NA.semester6Courses,
        (NA.semester7Courses.foldl (fun acc d => NA.insertCourseIfAbsent d acc)
          (NA.semester6Courses.foldl (fun acc d => NA.insertCourseIfAbsent d acc)
            (s.courses.getD []))).any
          (fun x => x.course_code == c.course_code) = true :=
      fun c hc => any_foldl_insertCourse_mono _ _ _
        (any_foldl_insertCourse_self _ _ c hc)
    have h7 : ∀ c ∈ NA.semester7Courses,
        (NA.semester7Courses.foldl (fun acc d => NA.insertCourseIfAbsent d acc)
          (NA.semester6Courses.foldl (fun acc d => NA.insertCourseIfAbsent d acc)
            (s.courses.getD []))).any
          (fun x => x.course_code == c.course_code) = true :=
      fun c hc => any_foldl_insertCourse_self _ _ c hc
    rw [insertStudentIfAbsent_noop _ _ (any_insertStudentIfAbsent_self _ _)]
    rw [foldl_insertCourse_noop NA.semester6Courses _ h6]
    rw [foldl_insertCourse_noop NA.semester7Courses _ h7]
  · intro x hx
    unfold NA.initDatabase NA.createTableIfNotExists
    simp only [Option.getD_some]
    exact mem_insertStudentIfAbsent _ _ _ hx
  · intro x hx
    unfold NA.initDatabase NA.createTableIfNotExists
    simp only [Option.getD_some]
    exact mem_foldl_insertCourse _ _ _ (mem_foldl_insertCourse _ _ _ hx)
  · intro x hx
    unfold NA.initDatabase NA.createTableIfNotExists
    simp only [Option.getD_some]
    exact hx

/-- Witness for C7's theorem on a state holding a pre-existing row. -/
theorem initDatabase_idempotent_witness :
    NA.initDatabase (NA.initDatabase exSchema) = NA.initDatabase exSchema ∧
      preexistingStudent ∈ (NA.initDatabase exSchema).students.getD [] :=
  ⟨(initDatabase_idempotent_and_preserves_rows exSchema).1,
   (initDatabase_idempotent_and_preserves_rows exSchema).2.1 preexistingStudent
     (by decide)⟩

/-! ## Claim C8: distinctness of the authentication failures -/

/-- C8 counterexample: a failing token verification and a verified token
whose user row no longer exists both surface with the same HTTP status
code, 403 — the response codes are not different. -/
theorem authenticateToken_equal_status_codes :
    Auth.authenticateToken (fun _ => none) [] (some "Bearer tok") =
        Auth.AuthResult.invalidToken ∧
      Auth.authenticateToken (fun _ => some 1) [] (some "Bearer tok") =
        Auth.AuthResult.userNotFound ∧
      Auth.authFailStatus (Auth.authenticateToken (fun _ => none) []
          (some "Bearer tok")) =
        Auth.authFailStatus (Auth.authenticateToken (fun _ => some 1) []
          (some "Bearer tok")) := by
  refine ⟨by decide, by decide, by decide⟩

/-- C8 (amended): the two causes are distinct — different outcome and
different response message — but share the status code 403; only the
missing-token case answers a different code, 401. -/
theorem authenticateToken_distinct_messages_same_code :
    Auth.authFailStatus Auth.AuthResult.invalidToken = some 403 ∧
      Auth.authFailStatus Auth.AuthResult.userNotFound = some 403 ∧
      Auth.authFailMessage Auth.AuthResult.invalidToken ≠
        Auth.authFailMessage Auth.AuthResult.userNotFound ∧
      Auth.authFailStatus Auth.AuthResult.missingToken = some 401 := by
  refine ⟨rfl, rfl, by decide, rfl⟩

/-- Witness exercising the amended C8 theorem. -/
theorem authenticateToken_distinct_messages_same_code_witness :
    Auth.authFailMessage Auth.AuthResult.invalidToken ≠
      Auth.authFailMessage Auth.AuthResult.userNotFound :=
  authenticateToken_distinct_messages_same_code.2.2.1

/-! ## Claim C9: self-registered role -/

/-- C9: registration stores whatever role string the unauthenticated
caller supplies ("student" only when the field is absent or empty), and
a user whose stored role is "admin" passes the `isAdmin` gate — so a
caller can self-register as admin with no privilege check. -/
theorem register_accepts_caller_role (hash : String → String) (db : Auth.DB)
    (nm em pw r : String) (hnm : nm ≠ "") (hem : em ≠ "") (hpw : pw ≠ "")
    (hr : r ≠ "") (hfresh : Auth.findUserByEmail db.users em = none) :
    (Auth.register hash db (some nm) (some em) (some pw) (some r)).1.2 =
        some (pubUser db.nextUserId nm em r) ∧
      (Auth.register hash db (some nm) (some em) (some pw) none).1.2 =
        some (pubUser db.nextUserId nm em "student") ∧
      Auth.isAdmin (pubUser db.nextUserId nm em "admin") = none := by
  refine ⟨?_, ?_, ?_⟩
  · unfold Auth.register
    simp [isFalsy, hnm, hem, hpw, hr, hfresh, pubUser]
  · unfold Auth.register
    simp [isFalsy, hnm, hem, hpw, hfresh, pubUser]
  · unfold Auth.isAdmin
    simp [pubUser]

/-- Witness for C9's theorem: self-registration as admin on the empty
state. -/
theorem register_accepts_caller_role_witness :
    (Auth.register (fun s => s) emptyAuthDb (some "Eve")
        (some "eve@example.com") (some "pw") (some "admin")).1.2 =
      some (pubUser 1 "Eve" "eve@example.com" "admin") ∧
      Auth.isAdmin (pubUser 1 "Eve" "eve@example.com" "admin") = none :=
  ⟨(register_accepts_caller_role (fun s => s) emptyAuthDb "Eve"
      "eve@example.com" "pw" "admin" (by decide) (by decide) (by decide)
      (by decide) (by decide)).1,
   (register_accepts_caller_role (fun s => s) emptyAuthDb "Eve"
      "eve@example.com" "pw" "admin" (by decide) (by decide) (by decide)
      (by decide) (by decide)).2.2⟩

/-! ## Claim C10: no password in responses -/

/-- The keys of a column projection all come from the column list. -/
theorem rowKeys_selectColumns_subset (cols : List String) (r : Auth.Row) :
    ∀ k ∈ Auth.rowKeys (Auth.selectColumns cols r), k ∈ cols := by
  intro k hk
  simp only [Auth.rowKeys, Auth.selectColumns, List.mem_map,
    List.mem_filterMap] at hk
  obtain ⟨kv, ⟨k', hk', hmap⟩, rfl⟩ := hk
  cases hfind : r.find? (fun kv => kv.1 == k') with
  | none => rw [hfind] at hmap; simp at hmap
  | some kv0 =>
    rw [hfind] at hmap
    simp only [Option.map_some'] at hmap
    injection hmap with h
    rw [← h]
    exact hk'

/-- C10: none of the register, login and profile responses carries the
stored password hash: register projects only the RETURNING columns,
login strips the password field, profile deletes it. -/
theorem responses_omit_password (r : Auth.Row) (n : Nat) :
    "password" ∉ Auth.rowKeys (Auth.registerResponseUser r) ∧
      "password" ∉ Auth.rowKeys (Auth.loginResponseUser r) ∧
      "password" ∉ Auth.rowKeys (Auth.profileResponseUser r n) := by
  refine ⟨?_, ?_, ?_⟩
  · intro hmem
    have := rowKeys_selectColumns_subset Auth.registerReturningCols r
      "password" hmem
    simp [Auth.registerReturningCols] at this
  · intro hmem
    simp only [Auth.rowKeys, Auth.loginResponseUser, Auth.omitPassword,
      List.mem_map, List.mem_filter, bne_iff_ne] at hmem
    obtain ⟨kv, ⟨_, hne⟩, hfst⟩ := hmem
    exact hne hfst
  · intro hmem
    simp only [Auth.rowKeys, Auth.profileResponseUser, Auth.omitPassword,
      List.mem_map, List.mem_filter, bne_iff_ne] at hmem
    obtain ⟨kv, ⟨_, hne⟩, hfst⟩ := hmem
    exact hne hfst

/-- Witness for C10's theorem on a concrete row carrying a password
hash. -/
theorem responses_omit_password_witness :
    "password" ∉ Auth.rowKeys (Auth.registerResponseUser exUserRow) ∧
      "password" ∉ Auth.rowKeys (Auth.loginResponseUser exUserRow) :=
  ⟨(responses_omit_password exUserRow 3).1,
   (responses_omit_password exUserRow 3).2.1⟩

end CMS
